import Mathlib

/-!
Shallow embedding of the wgpu-compute-toy renderer core (src/src/lib.rs).

The embedding models the observable state of `WgpuToyRenderer` and the
operations the specification talks about: prelude assembly, shader
installation (`set_shader`), error remapping (`handle_error`, the
`on_uncaptured_error` closure installed by `on_error`), per-frame execution
(`render_to`), input setters, and `resize`.

External collaborators are modelled at their interface boundary:
  * the naga WGSL parser is a parameter `parse : String → Except ParseError
    NagaModule`; a `NagaModule` carries the entry-point list in declaration
    order, as naga does;
  * GPU objects (buffers, textures, pipelines) are modelled by the
    descriptors the code creates them from — the only data the code ever
    observes about them;
  * GPU-side commands (buffer staging, dispatch, texture copies, error
    callback invocations, log output) are recorded as an `Event` trace in
    the order the code issues them;
  * the `lazy_regex` match inside the uncaptured-error closure is modelled
    by passing the captured groups `(row, col, summary)` directly
    (`none` models a diagnostic the pattern does not match);
  * `f32` values are carried as their 32-bit patterns (`Nat`), since the
    renderer core never computes with them, only stores and serializes.

Machine integers: `u32` fields are `Nat` with `% 2 ^ 32` applied exactly
where the Rust code performs wrapping arithmetic.
-/

namespace Wgputoy

/-- Shader stage of an entry point, as in naga's IR (external crate). -/
inductive ShaderStage where
  | Vertex
  | Fragment
  | Compute
deriving DecidableEq, BEq, Repr

/-- A naga entry point: name, stage and declared workgroup size
(`[u32; 3]`, modelled as a triple). Models `naga::EntryPoint`. -/
structure EntryPoint where
  name : String
  stage : ShaderStage
  workgroup_size : Nat × Nat × Nat
deriving DecidableEq, Repr

/-- A parsed naga module, restricted to the data `set_shader` reads:
the declared entry points in source declaration order.
Models `naga::Module`. -/
structure NagaModule where
  entry_points : List EntryPoint
deriving DecidableEq, Repr

/-- A naga parse error, modelled by the data the renderer extracts from it:
an absolute position in the assembled source and a rendered message.
Models `naga::front::wgsl::ParseError`. -/
structure ParseError where
  row : Nat
  col : Nat
  message : String
deriving DecidableEq, Repr

/-- Models `ParseError::location(&self, source)`: the (row, col) of the
error in the given assembled source. The position is stored in our model
directly, so the source argument is not consulted. -/
def ParseError.location (e : ParseError) (_wgsl : String) : Nat × Nat :=
  (e.row, e.col)

/-- Models `ParseError::emit_to_string(&self, source)`: the human-readable
summary of the error. -/
def ParseError.emit_to_string (e : ParseError) (_wgsl : String) : String :=
  e.message

/-- A compiled compute pipeline, modelled by its creation descriptor:
the WGSL module source it was compiled from and the entry point name
(`wgpu::ComputePipelineDescriptor` fields observed by the code). -/
structure ComputePipeline where
  source : String
  entry_point : String
deriving DecidableEq, Repr

/-- The `Time` uniform struct: `frame: u32`, `elapsed: f32` (bit pattern). -/
structure Time where
  frame : Nat
  elapsed : Nat
deriving DecidableEq, Repr

/-- The `Mouse` uniform struct: `pos: [u32; 2]`, `click: i32`. -/
structure Mouse where
  pos : Nat × Nat
  click : Int
deriving DecidableEq, Repr

def NUM_KEYCODES : Nat := 256

def MAX_CUSTOM_PARAMS : Nat := 16

def U32_MOD : Nat := 2 ^ 32

/-- Texture formats the renderer uses. -/
inductive TextureFormat where
  | Rgba16Float
  | Rgba32Float
  | Rgba8UnormSrgb
  | Rgba8Unorm
deriving DecidableEq, Repr

/-- A GPU buffer, modelled by its creation size in bytes. -/
structure BufferDesc where
  size : Nat
deriving DecidableEq, Repr

/-- A GPU texture, modelled by its creation extent and format. -/
structure TextureDesc where
  width : Nat
  height : Nat
  depth_or_array_layers : Nat
  format : TextureFormat
deriving DecidableEq, Repr

/-- The `Uniforms` resource bundle. -/
structure Uniforms where
  time : BufferDesc
  mouse : BufferDesc
  keys : BufferDesc
  custom : BufferDesc
  storage_buffer : BufferDesc
  tex_read : TextureDesc
  tex_write : TextureDesc
  tex_screen : TextureDesc
deriving DecidableEq, Repr

/-- Models `create_uniforms(wgpu, width, height, pass_f32)`.
Buffer sizes: `size_of::<Time>() = 8`, `size_of::<Mouse>() = 12`,
`NUM_KEYCODES / 8 = 32`, `MAX_CUSTOM_PARAMS * size_of::<f32>() = 64`.
The storage buffer size `4 * 4 * width * height` is computed in `u32`
before widening, hence the `% U32_MOD`. -/
def create_uniforms (width height : Nat) (pass_f32 : Bool) : Uniforms where
  time := ⟨8⟩
  mouse := ⟨12⟩
  keys := ⟨NUM_KEYCODES / 8⟩
  custom := ⟨MAX_CUSTOM_PARAMS * 4⟩
  storage_buffer := ⟨4 * 4 * width * height % U32_MOD⟩
  tex_read := ⟨width, height, 4,
    if pass_f32 then TextureFormat.Rgba32Float else TextureFormat.Rgba16Float⟩
  tex_write := ⟨width, height, 4,
    if pass_f32 then TextureFormat.Rgba32Float else TextureFormat.Rgba16Float⟩
  tex_screen := ⟨width, height, 1, TextureFormat.Rgba16Float⟩

/-- Lexicographic order on character lists. Rust's `Ord` on `String`
compares UTF-8 bytes; UTF-8 byte order coincides with code-point order,
which this implements. Used to model `BTreeMap<String, f32>` ordering. -/
def chars_lt : List Char → List Char → Bool
  | [], [] => false
  | [], _ :: _ => true
  | _ :: _, [] => false
  | a :: as, b :: bs => if a < b then true else if b < a then false else chars_lt as bs

/-- Models `BTreeMap::insert` on the map represented as an association
list sorted by key. An existing key keeps its place (and its key object)
and has its value replaced; a new key is placed at its sorted position. -/
def btree_insert (k : String) (v : Nat) : List (String × Nat) → List (String × Nat)
  | [] => [(k, v)]
  | (k2, v2) :: rest =>
    if chars_lt k.data k2.data then (k, v) :: (k2, v2) :: rest
    else if k.data = k2.data then (k2, v) :: rest
    else (k2, v2) :: btree_insert k v rest

/-- Models `count_newlines(s)`: the number of `\n` bytes in `s`
(a newline is a single byte, so counting chars equals counting bytes). -/
def count_newlines (s : String) : Nat :=
  (s.data.filter (fun c => c = '\n')).length

/-- The fixed type-alias / struct part of the prelude: the first raw
string pushed by `WgpuToyRenderer::prelude`. -/
def prelude_types : String :=
  "\n            type int = i32;\n            type uint = u32;\n            type float = f32;\n\n            type int2 = vec2<i32>;\n            type int3 = vec3<i32>;\n            type int4 = vec4<i32>;\n            type uint2 = vec2<u32>;\n            type uint3 = vec3<u32>;\n            type uint4 = vec4<u32>;\n            type float2 = vec2<f32>;\n            type float3 = vec3<f32>;\n            type float4 = vec4<f32>;\n\n            struct Time \x7b frame: uint, elapsed: float \x7d;\n            struct Mouse \x7b pos: uint2, click: int \x7d;\n        "

/-- The `Custom` struct field list: one `name: float,` fragment per
custom parameter, in map iteration order, all on one line. -/
def custom_struct_fields : List (String × Nat) → String
  | [] => ""
  | (name, _) :: rest => name ++ ": float," ++ custom_struct_fields rest

/-- The fixed binding-declaration part of the prelude (the `format!` raw
string), parameterized by the pass texture format string. -/
def prelude_bindings (pass_format : String) : String :=
  "\n            @group(0) @binding(1) var<uniform> time: Time;\n            @group(0) @binding(2) var<uniform> mouse: Mouse;\n            @group(0) @binding(3) var<uniform> _keyboard: array<vec4<u32>,2>;\n            @group(0) @binding(4) var screen: texture_storage_2d<rgba16float,write>;\n            @group(0) @binding(5) var<storage,read_write> atomic_storage: array<atomic<i32>>;\n            @group(0) @binding(6) var pass_in: texture_2d_array<f32>;\n            @group(0) @binding(7) var pass_out: texture_storage_2d_array<"
    ++ pass_format
    ++ ",write>;\n            @group(0) @binding(8) var nearest: sampler;\n            @group(0) @binding(9) var bilinear: sampler;\n            @group(0) @binding(10) var channel0: texture_2d<f32>;\n            @group(0) @binding(11) var channel1: texture_2d<f32>;\n        "

/-- The `keyDown` helper function appended at the end of the prelude. -/
def prelude_keydown_fn : String :=
  "\n            fn keyDown(keycode: uint) -> bool \x7b\n                return ((_keyboard[keycode / 128u][(keycode % 128u) / 32u] >> (keycode % 32u)) & 1u) == 1u;\n            \x7d\n        "

/-- Observable effects issued by the renderer, in program order:
staging-belt buffer uploads, compute dispatches, texture-to-texture
copies (with their copy extent), error-callback invocations, log output,
and the final screen blit. -/
inductive Event where
  | stageUpload (buffer : String) (bytes : List Nat)
  | dispatch (x y z : Nat)
  | copyTexToTex (width height depth : Nat)
  | errorReported (summary : String) (row col : Nat)
  | logWarn (message : String)
  | logError (message : String)
  | blit
deriving DecidableEq, Repr

/-- Models `ErrorCallback::call`: invokes the registered JS callback with
`(summary, row, col)`, or logs an error if none is registered. -/
def error_callback_call (registered : Bool) (summary : String) (row col : Nat) : Event :=
  if registered then Event.errorReported summary row col
  else Event.logError "No error callback registered"

/-- Little-endian bytes of a `u32` value (as staged by the renderer;
`bytemuck::bytes_of` on a `#[repr(C)]` field on a little-endian target). -/
def u32_bytes (x : Nat) : List Nat :=
  [x % 256, x / 256 % 256, x / 65536 % 256, x / 16777216 % 256]

/-- Little-endian bytes of an `f32` value given by its bit pattern. -/
def f32_bytes (bits : Nat) : List Nat :=
  u32_bytes bits

/-- Little-endian bytes of an `i32` value (two's complement). -/
def i32_bytes (x : Int) : List Nat :=
  u32_bytes (x.emod (2 ^ 32)).toNat

/-- One byte of the key bitset, LSB-first, as `bitvec`'s `Lsb0` layout
packs eight `bool`s into a `u8`. -/
def keys_byte (b0 b1 b2 b3 b4 b5 b6 b7 : Bool) : Nat :=
  (if b0 then 1 else 0) + (if b1 then 2 else 0) + (if b2 then 4 else 0) +
  (if b3 then 8 else 0) + (if b4 then 16 else 0) + (if b5 then 32 else 0) +
  (if b6 then 64 else 0) + (if b7 then 128 else 0)

/-- The raw byte slice of the key bitset (`keys.as_raw_slice()`): the
256 bits packed LSB-first into bytes. -/
def keys_bytes : List Bool → List Nat
  | b0 :: b1 :: b2 :: b3 :: b4 :: b5 :: b6 :: b7 :: rest =>
      keys_byte b0 b1 b2 b3 b4 b5 b6 b7 :: keys_bytes rest
  | _ => []

/-- Models `num::Integer::div_ceil` on `u32`: for a positive divisor this
is exactly the ceiling of the division. (Rust panics on divisor zero; a
validated WGSL module only yields positive workgroup sizes, and theorems
about the grid size carry positivity hypotheses.) -/
def div_ceil (a b : Nat) : Nat :=
  (a + b - 1) / b

/-- The observable state of `WgpuToyRenderer`.

`custom` is the `BTreeMap<String, f32>` as a key-sorted association list
(values are f32 bit patterns). `keys` is the 256-bit key bitset.
`uncaptured_prelude_len` models the environment of the closure installed
on the device by `on_error`: the `prelude_len` captured at registration
time (`none` while no closure is installed). `shader_error` models the
`SHADER_ERROR` atomic flag (single-threaded interleaving: each operation
of the model runs atomically). GPU handles whose descriptors carry no
claim-relevant data (bind groups, layouts, the blitter, the two channel
textures) are not part of the observable state. -/
structure WgpuToyRenderer where
  screen_width : Nat
  screen_height : Nat
  time : Time
  mouse : Mouse
  keys : List Bool
  custom : List (String × Nat)
  uniforms : Uniforms
  last_compute_pipelines : Option (List (ComputePipeline × (Nat × Nat × Nat)))
  compute_pipelines : List (ComputePipeline × (Nat × Nat × Nat))
  on_error_cb : Bool
  uncaptured_prelude_len : Option Nat
  pass_f32 : Bool
  shader_error : Bool
deriving DecidableEq, Repr

/-- Models `WgpuToyRenderer::new`: the initial state for a window of the
given inner size. The custom map starts with the `_dummy` placeholder
(value `0.0`, bit pattern 0); `SHADER_ERROR` starts false. -/
def WgpuToyRenderer.new (width height : Nat) : WgpuToyRenderer where
  screen_width := width
  screen_height := height
  time := ⟨0, 0⟩
  mouse := ⟨(0, 0), 0⟩
  keys := List.replicate NUM_KEYCODES false
  custom := [("_dummy", 0)]
  uniforms := create_uniforms width height false
  last_compute_pipelines := none
  compute_pipelines := []
  on_error_cb := false
  uncaptured_prelude_len := none
  pass_f32 := false
  shader_error := false

/-- Models `WgpuToyRenderer::prelude`: the assembled header text —
type aliases, the `Custom` struct with one field per custom parameter in
map iteration order, the binding declarations (pass texture format chosen
by `pass_f32`), and the `keyDown` helper. -/
def WgpuToyRenderer.prelude (self : WgpuToyRenderer) : String :=
  prelude_types
    ++ "struct Custom \x7b"
    ++ custom_struct_fields self.custom
    ++ "\x7d;"
    ++ "@group(0) @binding(0) var<uniform> custom: Custom;"
    ++ prelude_bindings (if self.pass_f32 then "rgba32float" else "rgba16float")
    ++ prelude_keydown_fn

/-- Models `WgpuToyRenderer::handle_error`: recompute the prelude newline
count, remap the error row by subtracting it (clamping at zero), pass the
column through, and invoke the error callback. -/
def WgpuToyRenderer.handle_error (self : WgpuToyRenderer) (e : ParseError) (wgsl : String) :
    Event :=
  let prelude_len := count_newlines self.prelude
  let row := (e.location wgsl).1
  let col := (e.location wgsl).2
  let summary := e.emit_to_string wgsl
  error_callback_call self.on_error_cb summary
    (if row ≥ prelude_len then row - prelude_len else 0) col

/-- Models `WgpuToyRenderer::set_shader`: assemble `prelude ++ shader`,
parse it with the (external) WGSL parser. On success, the compute entry
points are filtered in declaration order, the previous current pipeline
set moves into `last_compute_pipelines`, and one pipeline per compute
entry point (paired with its declared workgroup size) becomes current.
On failure, the state is unchanged and the error is logged and remapped. -/
def WgpuToyRenderer.set_shader (self : WgpuToyRenderer)
    (parse : String → Except ParseError NagaModule) (shader : String) :
    WgpuToyRenderer × List Event :=
  let wgsl := self.prelude ++ shader
  match parse wgsl with
  | Except.ok module =>
    let entry_points := module.entry_points.filter (fun f => f.stage == ShaderStage.Compute)
    ({ self with
        last_compute_pipelines := some self.compute_pipelines
        compute_pipelines :=
          entry_points.map (fun ep => (⟨wgsl, ep.name⟩, ep.workgroup_size)) },
     [])
  | Except.error e =>
    (self, [Event.logError ("Error parsing WGSL: " ++ e.message), self.handle_error e wgsl])

/-- The bytes staged into the custom uniform buffer each frame:
`self.custom.values()` serialized in map iteration order. -/
def WgpuToyRenderer.custom_bytes (self : WgpuToyRenderer) : List Nat :=
  (self.custom.map Prod.snd).flatMap f32_bytes

/-- Models `WgpuToyRenderer::render_to` for one frame. In program order:
stage the four uniform uploads; test-and-clear `SHADER_ERROR` and, if it
was set, replace the current pipeline set by the rollback set (emptying
the rollback slot) or warn if none is stored; then for each current stage
dispatch a `div_ceil` grid and copy the whole write feedback texture
array (extent `screen_width × screen_height × 4`) into the read texture;
finally increment the `u32` frame counter and blit to the screen. -/
def WgpuToyRenderer.render_to (self : WgpuToyRenderer) : WgpuToyRenderer × List Event :=
  let uploads :=
    [Event.stageUpload "custom" self.custom_bytes,
     Event.stageUpload "time" (u32_bytes self.time.frame ++ f32_bytes self.time.elapsed),
     Event.stageUpload "mouse"
       (u32_bytes self.mouse.pos.1 ++ u32_bytes self.mouse.pos.2 ++ i32_bytes self.mouse.click),
     Event.stageUpload "keys" (keys_bytes self.keys)]
  let rolled : WgpuToyRenderer × List Event :=
    if self.shader_error then
      match self.last_compute_pipelines with
      | none =>
        ({ self with shader_error := false, last_compute_pipelines := none },
         [Event.logWarn "unable to rollback shader after error"])
      | some vec =>
        ({ self with
            shader_error := false
            last_compute_pipelines := none
            compute_pipelines := vec },
         [])
    else (self, [])
  let st := rolled.1
  let passes := st.compute_pipelines.flatMap (fun p =>
    [Event.dispatch (div_ceil st.screen_width p.2.1) (div_ceil st.screen_height p.2.2.1) 1,
     Event.copyTexToTex st.screen_width st.screen_height 4])
  ({ st with time := { st.time with frame := (st.time.frame + 1) % U32_MOD } },
   uploads ++ rolled.2 ++ passes ++ [Event.blit])

/-- Models `set_time_elapsed`. -/
def WgpuToyRenderer.set_time_elapsed (self : WgpuToyRenderer) (t : Nat) : WgpuToyRenderer :=
  { self with time := { self.time with elapsed := t } }

/-- Models `set_mouse_pos`. -/
def WgpuToyRenderer.set_mouse_pos (self : WgpuToyRenderer) (x y : Nat) : WgpuToyRenderer :=
  { self with mouse := { self.mouse with pos := (x, y) } }

/-- Models `set_mouse_click`. -/
def WgpuToyRenderer.set_mouse_click (self : WgpuToyRenderer) (click : Bool) : WgpuToyRenderer :=
  { self with mouse := { self.mouse with click := if click then 1 else 0 } }

/-- Models `set_keydown`: `BitSlice::set` panics when the index is out of
the 256-bit range, which the embedding renders as `none`. -/
def WgpuToyRenderer.set_keydown (self : WgpuToyRenderer) (keycode : Nat) (keydown : Bool) :
    Option WgpuToyRenderer :=
  if keycode < NUM_KEYCODES then
    some { self with keys := self.keys.set keycode keydown }
  else
    none

/-- Models `set_custom_float`: an unconditional `BTreeMap::insert` —
the source performs no parameter-count check. -/
def WgpuToyRenderer.set_custom_float (self : WgpuToyRenderer) (name : String) (value : Nat) :
    WgpuToyRenderer :=
  { self with custom := btree_insert name value self.custom }

/-- Models `set_pass_f32`. -/
def WgpuToyRenderer.set_pass_f32 (self : WgpuToyRenderer) (pass_f32 : Bool) : WgpuToyRenderer :=
  { self with pass_f32 := pass_f32 }

/-- Models `resize(width, height)`: store the new size, reset the frame
counter to zero, and re-create all the uniform resources at the new size
(the bind group, layouts and blitter are also re-created in the source;
their descriptors carry no observable data beyond `uniforms`). The
pipeline sets are untouched. -/
def WgpuToyRenderer.resize (self : WgpuToyRenderer) (width height : Nat) : WgpuToyRenderer :=
  { self with
      screen_width := width
      screen_height := height
      time := { self.time with frame := 0 }
      uniforms := create_uniforms width height self.pass_f32 }

/-- Models `on_error(callback)`: register the callback, then install the
uncaptured-error closure on the device; the closure captures the value of
`count_newlines(prelude)` at registration time. -/
def WgpuToyRenderer.on_error (self : WgpuToyRenderer) : WgpuToyRenderer :=
  let registered := { self with on_error_cb := true }
  { registered with uncaptured_prelude_len := some (count_newlines registered.prelude) }

/-- Models one invocation of the closure installed by `on_error` when the
device reports an uncaptured error. The regex capture on the diagnostic
text is external input: `some (row, col, summary)` when the fixed pattern
matches, `none` otherwise (then the error is only logged). On a match the
row is remapped with the registration-time `prelude_len` captured in the
closure, the callback is invoked, and `SHADER_ERROR` is set. When no
closure is installed the default wgpu handler runs (out of scope). -/
def WgpuToyRenderer.on_uncaptured_error (self : WgpuToyRenderer)
    (captures : Option (Nat × Nat × String)) : WgpuToyRenderer × List Event :=
  match self.uncaptured_prelude_len with
  | none => (self, [])
  | some prelude_len =>
    match captures with
    | none => (self, [Event.logError "uncaptured device error"])
    | some (row, col, summary) =>
      ({ self with shader_error := true },
       [error_callback_call true summary
          (if row ≥ prelude_len then row - prelude_len else 0) col])

/-- The states reachable through the renderer's public interface,
starting from `new`. -/
inductive Reachable : WgpuToyRenderer → Prop where
  | new (w h : Nat) : Reachable (WgpuToyRenderer.new w h)
  | set_shader {st} (parse : String → Except ParseError NagaModule) (shader : String) :
      Reachable st → Reachable (st.set_shader parse shader).1
  | render {st} : Reachable st → Reachable st.render_to.1
  | on_uncaptured {st} (captures : Option (Nat × Nat × String)) :
      Reachable st → Reachable (st.on_uncaptured_error captures).1
  | on_error {st} : Reachable st → Reachable st.on_error
  | set_custom_float {st} (name : String) (v : Nat) :
      Reachable st → Reachable (st.set_custom_float name v)
  | set_keydown {st st2 : WgpuToyRenderer} {keycode : Nat} {b : Bool} :
      Reachable st → st.set_keydown keycode b = some st2 → Reachable st2
  | resize {st} (w h : Nat) : Reachable st → Reachable (st.resize w h)
  | set_pass_f32 {st} (b : Bool) : Reachable st → Reachable (st.set_pass_f32 b)
  | set_time_elapsed {st} (t : Nat) : Reachable st → Reachable (st.set_time_elapsed t)
  | set_mouse_pos {st} (x y : Nat) : Reachable st → Reachable (st.set_mouse_pos x y)
  | set_mouse_click {st} (b : Bool) : Reachable st → Reachable (st.set_mouse_click b)

/-- The states reachable without ever consuming a pending rollback:
a frame is only rendered while the `SHADER_ERROR` flag is clear. -/
inductive ReachableNoRollback : WgpuToyRenderer → Prop where
  | new (w h : Nat) : ReachableNoRollback (WgpuToyRenderer.new w h)
  | set_shader {st} (parse : String → Except ParseError NagaModule) (shader : String) :
      ReachableNoRollback st → ReachableNoRollback (st.set_shader parse shader).1
  | render {st} : ReachableNoRollback st → st.shader_error = false →
      ReachableNoRollback st.render_to.1
  | on_uncaptured {st} (captures : Option (Nat × Nat × String)) :
      ReachableNoRollback st → ReachableNoRollback (st.on_uncaptured_error captures).1
  | on_error {st} : ReachableNoRollback st → ReachableNoRollback st.on_error
  | set_custom_float {st} (name : String) (v : Nat) :
      ReachableNoRollback st → ReachableNoRollback (st.set_custom_float name v)
  | set_keydown {st st2 : WgpuToyRenderer} {keycode : Nat} {b : Bool} :
      ReachableNoRollback st → st.set_keydown keycode b = some st2 → ReachableNoRollback st2
  | resize {st} (w h : Nat) : ReachableNoRollback st → ReachableNoRollback (st.resize w h)
  | set_pass_f32 {st} (b : Bool) : ReachableNoRollback st → ReachableNoRollback (st.set_pass_f32 b)
  | set_time_elapsed {st} (t : Nat) :
      ReachableNoRollback st → ReachableNoRollback (st.set_time_elapsed t)
  | set_mouse_pos {st} (x y : Nat) :
      ReachableNoRollback st → ReachableNoRollback (st.set_mouse_pos x y)
  | set_mouse_click {st} (b : Bool) :
      ReachableNoRollback st → ReachableNoRollback (st.set_mouse_click b)

/-- A parse outcome with a single compute entry point of workgroup size
`(8, 8, 1)`, used to instantiate theorems at concrete inputs. -/
def parse_one_compute : String → Except ParseError NagaModule :=
  fun _ => Except.ok ⟨[⟨"main", ShaderStage.Compute, (8, 8, 1)⟩]⟩

/-- For a positive divisor, `div_ceil a b` is the least `g` with
`a ≤ g * b`: the ceiling of the division, as dispatched by `render_to`. -/
theorem div_ceil_spec (a b : Nat) (hb : 0 < b) :
    a ≤ div_ceil a b * b ∧ ∀ g : Nat, a ≤ g * b → div_ceil a b ≤ g := by
  constructor
  · have h := Nat.div_add_mod (a + b - 1) b
    have hm : (a + b - 1) % b < b := Nat.mod_lt _ hb
    have hcomm : div_ceil a b * b = b * ((a + b - 1) / b) := by
      unfold div_ceil; exact Nat.mul_comm _ _
    omega
  · intro g hg
    have hlt : a + b - 1 < (g + 1) * b := by
      have hx : (g + 1) * b = g * b + b := by ring
      omega
    have := (Nat.div_lt_iff_lt_mul hb).mpr hlt
    unfold div_ceil
    omega

/-- Inserting a key not present in the map grows it by exactly one entry. -/
theorem btree_insert_length (k : String) (v : Nat) (l : List (String × Nat))
    (hk : ∀ p ∈ l, p.1.data ≠ k.data) :
    (btree_insert k v l).length = l.length + 1 := by
  induction l with
  | nil => rfl
  | cons hd tl ih =>
    simp only [btree_insert]
    split
    · simp
    · split
      · next heq => exact absurd heq.symm (hk hd (by simp))
      · have := ih (fun p hp => hk p (by simp [hp]))
        simp [this]

/-- C1: for every shader text whose assembled source parses successfully,
`set_shader` installs exactly one pipeline stage per compute entry point,
in source declaration order, each paired with the workgroup size declared
in the source, and moves the previous current set into the rollback slot. -/
theorem set_shader_success_installs_stages (st : WgpuToyRenderer)
    (parse : String → Except ParseError NagaModule) (shader : String)
    (m : NagaModule) (hp : parse (st.prelude ++ shader) = Except.ok m) :
    (st.set_shader parse shader).1.compute_pipelines =
      (m.entry_points.filter (fun f => f.stage == ShaderStage.Compute)).map
        (fun ep => (⟨st.prelude ++ shader, ep.name⟩, ep.workgroup_size)) ∧
    (st.set_shader parse shader).1.compute_pipelines.length =
      (m.entry_points.filter (fun f => f.stage == ShaderStage.Compute)).length ∧
    (st.set_shader parse shader).1.last_compute_pipelines = some st.compute_pipelines := by
  simp [WgpuToyRenderer.set_shader, hp]

/-- Witness for C1: a parse result with one compute entry point yields a
one-stage pipeline set with workgroup size `(8, 8, 1)` and stores the old
(empty) set in the rollback slot. -/
theorem set_shader_success_installs_stages_witness :
    ((WgpuToyRenderer.new 64 64).set_shader parse_one_compute "x").1.compute_pipelines =
      [(⟨(WgpuToyRenderer.new 64 64).prelude ++ "x", "main"⟩, (8, 8, 1))] ∧
    ((WgpuToyRenderer.new 64 64).set_shader parse_one_compute "x").1.last_compute_pipelines =
      some [] := by
  have h := set_shader_success_installs_stages (WgpuToyRenderer.new 64 64) parse_one_compute
    "x" ⟨[⟨"main", ShaderStage.Compute, (8, 8, 1)⟩]⟩ rfl
  exact ⟨h.1, h.2.2⟩

/-- C3: when the assembled source fails to parse, `set_shader` leaves the
whole renderer state (in particular both the current pipeline set and the
rollback slot) unchanged, reports the error through the error callback
with its remapped location, and a subsequent frame renders exactly as it
would have before the call. -/
theorem set_shader_failure_preserves_state (st : WgpuToyRenderer)
    (parse : String → Except ParseError NagaModule) (shader : String)
    (e : ParseError) (hp : parse (st.prelude ++ shader) = Except.error e)
    (hcb : st.on_error_cb = true) :
    (st.set_shader parse shader).1 = st ∧
    (st.set_shader parse shader).2 =
      [Event.logError ("Error parsing WGSL: " ++ e.message),
       Event.errorReported e.message
         (if e.row ≥ count_newlines st.prelude then e.row - count_newlines st.prelude else 0)
         e.col] ∧
    ((st.set_shader parse shader).1).render_to = st.render_to := by
  refine ⟨?_, ?_, ?_⟩ <;>
    simp [WgpuToyRenderer.set_shader, hp, WgpuToyRenderer.handle_error,
      error_callback_call, hcb, ParseError.location, ParseError.emit_to_string]

/-- Witness for C3: installing shader "A" then a failing shader "B" leaves
the current one-stage set and the rollback slot of the "A" install intact,
and reports the error at the remapped location (row 40 in the assembled
source, prelude of 33 lines, reported as row 7). -/
theorem set_shader_failure_preserves_state_witness :
    (((((WgpuToyRenderer.new 64 64).on_error).set_shader parse_one_compute "A").1.set_shader
        (fun _ => Except.error ⟨40, 3, "bad"⟩) "B").1 =
      (((WgpuToyRenderer.new 64 64).on_error).set_shader parse_one_compute "A").1) ∧
    ((((WgpuToyRenderer.new 64 64).on_error).set_shader parse_one_compute "A").1.set_shader
        (fun _ => Except.error ⟨40, 3, "bad"⟩) "B").2 =
      [Event.logError ("Error parsing WGSL: " ++ "bad"), Event.errorReported "bad" 7 3] := by
  have h := set_shader_failure_preserves_state
    ((((WgpuToyRenderer.new 64 64).on_error).set_shader parse_one_compute "A").1)
    (fun _ => Except.error ⟨40, 3, "bad"⟩) "B" ⟨40, 3, "bad"⟩ rfl rfl
  refine ⟨h.1, ?_⟩
  rw [h.2.1]
  decide

/-- C4: a compile error at assembled position `(row, col)` is reported at
row `row - preludeLineCount` when `row ≥ preludeLineCount` and at row `0`
otherwise (never negative over `Nat`), where `preludeLineCount` is the
newline count of the prelude recomputed at remap time; the column passes
through unchanged. -/
theorem handle_error_remaps_row (st : WgpuToyRenderer) (e : ParseError) (wgsl : String)
    (hcb : st.on_error_cb = true) :
    st.handle_error e wgsl =
      Event.errorReported e.message
        (if e.row ≥ count_newlines st.prelude then e.row - count_newlines st.prelude else 0)
        e.col := by
  simp [WgpuToyRenderer.handle_error, error_callback_call, hcb,
    ParseError.location, ParseError.emit_to_string]

/-- Witness for C4: with the 33-line initial prelude, an error at assembled
row 40 is reported at row 7, and one at row 2 (inside the prelude) at
row 0; columns pass through. -/
theorem handle_error_remaps_row_witness :
    ((WgpuToyRenderer.new 64 64).on_error).handle_error ⟨40, 3, "x"⟩ "w" =
      Event.errorReported "x" 7 3 ∧
    ((WgpuToyRenderer.new 64 64).on_error).handle_error ⟨2, 9, "y"⟩ "w" =
      Event.errorReported "y" 0 9 := by
  constructor
  · rw [handle_error_remaps_row ((WgpuToyRenderer.new 64 64).on_error) ⟨40, 3, "x"⟩ "w" rfl]
    decide
  · rw [handle_error_remaps_row ((WgpuToyRenderer.new 64 64).on_error) ⟨2, 9, "y"⟩ "w" rfl]
    decide

/-- C9: after `resize(w, h)` the frame counter reads 0, every
viewport-sized resource (feedback read/write textures, screen texture,
storage buffer) is re-created at the new dimensions, and the installed
pipeline sets are untouched. -/
theorem resize_resets_frame_and_recreates (st : WgpuToyRenderer) (w h : Nat) :
    (st.resize w h).time.frame = 0 ∧
    (st.resize w h).screen_width = w ∧
    (st.resize w h).screen_height = h ∧
    (st.resize w h).uniforms = create_uniforms w h st.pass_f32 ∧
    (st.resize w h).uniforms.tex_read =
      ⟨w, h, 4, if st.pass_f32 then TextureFormat.Rgba32Float else TextureFormat.Rgba16Float⟩ ∧
    (st.resize w h).uniforms.tex_write =
      ⟨w, h, 4, if st.pass_f32 then TextureFormat.Rgba32Float else TextureFormat.Rgba16Float⟩ ∧
    (st.resize w h).uniforms.tex_screen = ⟨w, h, 1, TextureFormat.Rgba16Float⟩ ∧
    (st.resize w h).uniforms.storage_buffer.size = 4 * 4 * w * h % U32_MOD ∧
    (st.resize w h).compute_pipelines = st.compute_pipelines ∧
    (st.resize w h).last_compute_pipelines = st.last_compute_pipelines :=
  ⟨rfl, rfl, rfl, rfl, rfl, rfl, rfl, rfl, rfl, rfl⟩

/-- C2: with the pending-rollback flag set and a rollback set stored, the
next frame test-and-clears the flag exactly once, replaces the current
pipeline set by the rollback set and empties the rollback slot; a second
fault signal arriving before any new successful compile re-arms the flag
but the following frame leaves the current pipeline set unchanged (only a
warning is logged). -/
theorem rollback_consumed_exactly_once (st : WgpuToyRenderer)
    (v : List (ComputePipeline × (Nat × Nat × Nat)))
    (hflag : st.shader_error = true)
    (hlast : st.last_compute_pipelines = some v)
    (hreg : st.uncaptured_prelude_len.isSome = true)
    (row col : Nat) (summary : String) :
    ((st.render_to).1.compute_pipelines = v ∧
     (st.render_to).1.last_compute_pipelines = none ∧
     (st.render_to).1.shader_error = false) ∧
    (((st.render_to).1.on_uncaptured_error (some (row, col, summary))).1.shader_error = true ∧
     ((st.render_to).1.on_uncaptured_error (some (row, col, summary))).1.compute_pipelines = v ∧
     ((((st.render_to).1.on_uncaptured_error (some (row, col, summary))).1.render_to).1.compute_pipelines = v) ∧
     Event.logWarn "unable to rollback shader after error" ∈
       (((st.render_to).1.on_uncaptured_error (some (row, col, summary))).1.render_to).2) := by
  obtain ⟨L, hL⟩ := Option.isSome_iff_exists.mp hreg
  refine ⟨⟨?_, ?_, ?_⟩, ?_⟩ <;>
    simp [WgpuToyRenderer.render_to, WgpuToyRenderer.on_uncaptured_error, hflag, hlast, hL,
      error_callback_call]

/-- A state in which the error callback is registered, two shaders have
been installed in sequence and a runtime fault has been signalled: the
flag is set and the rollback slot holds the first shader's stage set. -/
def st_fault : WgpuToyRenderer :=
  ((((((WgpuToyRenderer.new 1 1).on_error).set_shader parse_one_compute "a").1).set_shader
      parse_one_compute "b").1.on_uncaptured_error (some (0, 0, "e"))).1

/-- Witness for C2: in the faulted two-install state, the next frame rolls
back to the first shader's one-stage set and empties the rollback slot; a
renewed fault signal leaves that set unchanged across the following frame. -/
theorem rollback_consumed_exactly_once_witness :
    ((st_fault.render_to).1.compute_pipelines =
        (((WgpuToyRenderer.new 1 1).on_error).set_shader parse_one_compute "a").1.compute_pipelines ∧
     (st_fault.render_to).1.last_compute_pipelines = none ∧
     (st_fault.render_to).1.shader_error = false) ∧
    ((((st_fault.render_to).1.on_uncaptured_error (some (3, 4, "f"))).1.render_to).1.compute_pipelines =
        (((WgpuToyRenderer.new 1 1).on_error).set_shader parse_one_compute "a").1.compute_pipelines ∧
     Event.logWarn "unable to rollback shader after error" ∈
       (((st_fault.render_to).1.on_uncaptured_error (some (3, 4, "f"))).1.render_to).2) := by
  have h := rollback_consumed_exactly_once st_fault
    ((((WgpuToyRenderer.new 1 1).on_error).set_shader parse_one_compute "a").1.compute_pipelines)
    rfl rfl rfl 3 4 "f"
  exact ⟨h.1, h.2.2.2⟩

set_option maxRecDepth 8192 in
/-- C7: the `Custom` struct fields in the generated prelude appear in
sorted parameter-name order, and the per-frame serialization into the
custom uniform buffer emits the values in that same order: after
inserting "b" then "a" the header declares `a` before `b` and the staged
bytes place `a`'s value before `b`'s. The final conjunct states the
general serialization rule: the first staged upload of any frame is the
custom buffer serialized in map iteration order. -/
theorem custom_uniform_sorted_order (a b : Nat) :
    (((WgpuToyRenderer.new 1 1).set_custom_float "b" b).set_custom_float "a" a).custom =
      [("_dummy", 0), ("a", a), ("b", b)] ∧
    custom_struct_fields
        (((WgpuToyRenderer.new 1 1).set_custom_float "b" b).set_custom_float "a" a).custom =
      "_dummy: float," ++ "a: float," ++ "b: float," ∧
    (((WgpuToyRenderer.new 1 1).set_custom_float "b" b).set_custom_float "a" a).prelude =
      prelude_types ++
        "struct Custom \x7b_dummy: float,a: float,b: float,\x7d;@group(0) @binding(0) var<uniform> custom: Custom;"
        ++ prelude_bindings "rgba16float" ++ prelude_keydown_fn ∧
    (((WgpuToyRenderer.new 1 1).set_custom_float "b" b).set_custom_float "a" a).custom_bytes =
      f32_bytes 0 ++ f32_bytes a ++ f32_bytes b ∧
    List.Chain' (fun p q => chars_lt (Prod.fst p).data (Prod.fst q).data = true)
      (((WgpuToyRenderer.new 1 1).set_custom_float "b" b).set_custom_float "a" a).custom ∧
    (∀ st : WgpuToyRenderer, (st.render_to).2.head? =
      some (Event.stageUpload "custom" ((st.custom.map Prod.snd).flatMap f32_bytes))) := by
  refine ⟨rfl, rfl, rfl, rfl, ?_, ?_⟩
  · exact List.Chain'.cons rfl (List.Chain'.cons rfl (List.chain'_singleton _))
  · intro st
    rfl

/-- C8: in a frame with no pending fault, each current stage is
dispatched in declared order with a `div_ceil`-sized grid (for positive
workgroup sizes, the least grid covering the viewport) followed
immediately — after every stage, not only at end of frame — by a copy of
the entire write feedback texture array (extent `w × h × 4`, the full
extent the texture was created with) into the read texture; the frame
counter is incremented by exactly one after all stages. -/
theorem render_frame_dispatch_trace (st : WgpuToyRenderer)
    (hflag : st.shader_error = false)
    (hframe : st.time.frame + 1 < U32_MOD)
    (hu : st.uniforms = create_uniforms st.screen_width st.screen_height st.pass_f32)
    (hwg : ∀ p ∈ st.compute_pipelines, 0 < p.2.1 ∧ 0 < p.2.2.1) :
    (st.render_to).1.time.frame = st.time.frame + 1 ∧
    (st.render_to).2 =
      [Event.stageUpload "custom" st.custom_bytes,
       Event.stageUpload "time" (u32_bytes st.time.frame ++ f32_bytes st.time.elapsed),
       Event.stageUpload "mouse"
         (u32_bytes st.mouse.pos.1 ++ u32_bytes st.mouse.pos.2 ++ i32_bytes st.mouse.click),
       Event.stageUpload "keys" (keys_bytes st.keys)] ++
      st.compute_pipelines.flatMap (fun p =>
        [Event.dispatch (div_ceil st.screen_width p.2.1) (div_ceil st.screen_height p.2.2.1) 1,
         Event.copyTexToTex st.screen_width st.screen_height 4]) ++
      [Event.blit] ∧
    (st.uniforms.tex_write.width = st.screen_width ∧
     st.uniforms.tex_write.height = st.screen_height ∧
     st.uniforms.tex_write.depth_or_array_layers = 4) ∧
    (∀ p ∈ st.compute_pipelines,
      (st.screen_width ≤ div_ceil st.screen_width p.2.1 * p.2.1 ∧
       ∀ g, st.screen_width ≤ g * p.2.1 → div_ceil st.screen_width p.2.1 ≤ g) ∧
      (st.screen_height ≤ div_ceil st.screen_height p.2.2.1 * p.2.2.1 ∧
       ∀ g, st.screen_height ≤ g * p.2.2.1 → div_ceil st.screen_height p.2.2.1 ≤ g)) := by
  refine ⟨?_, ?_, ?_, ?_⟩
  · simp [WgpuToyRenderer.render_to, hflag, Nat.mod_eq_of_lt hframe]
  · simp [WgpuToyRenderer.render_to, hflag]
  · rw [hu]; exact ⟨rfl, rfl, rfl⟩
  · intro p hp
    exact ⟨div_ceil_spec _ _ (hwg p hp).1, div_ceil_spec _ _ (hwg p hp).2⟩

/-- Witness for C8: the spec's end-to-end scenario — one compute entry
point of workgroup size `(8, 8, 1)` over a `64 × 64` viewport dispatches
a grid of `8 × 8 × 1` groups followed by a full-extent feedback copy, and
the frame counter afterwards reads 1. -/
theorem render_frame_dispatch_trace_witness :
    (((((WgpuToyRenderer.new 64 64).set_shader parse_one_compute "s").1).render_to).1.time.frame = 0 + 1) ∧
    ((((WgpuToyRenderer.new 64 64).set_shader parse_one_compute "s").1).render_to).2 =
      [Event.stageUpload "custom"
         (((((WgpuToyRenderer.new 64 64).set_shader parse_one_compute "s").1)).custom_bytes),
       Event.stageUpload "time" (u32_bytes 0 ++ f32_bytes 0),
       Event.stageUpload "mouse" (u32_bytes 0 ++ u32_bytes 0 ++ i32_bytes 0),
       Event.stageUpload "keys"
         (keys_bytes ((((WgpuToyRenderer.new 64 64).set_shader parse_one_compute "s").1)).keys)] ++
      ([Event.dispatch 8 8 1, Event.copyTexToTex 64 64 4] ++ [Event.blit]) := by
  have hpipes : (((WgpuToyRenderer.new 64 64).set_shader parse_one_compute "s").1).compute_pipelines =
      [(⟨(WgpuToyRenderer.new 64 64).prelude ++ "s", "main"⟩, (8, 8, 1))] := rfl
  have h := render_frame_dispatch_trace
    (((WgpuToyRenderer.new 64 64).set_shader parse_one_compute "s").1)
    rfl (by decide) rfl
    (by rw [hpipes]; intro p hp; simp at hp; rw [hp]; exact ⟨by decide, by decide⟩)
  refine ⟨h.1, ?_⟩
  rw [h.2.1, hpipes]
  rfl

/-- Counterexample to C5 as stated: the `Custom` struct is emitted on a
single line, so the prelude newline count only changes when a custom
parameter name itself contains a newline. Register the callback on the
fresh state (the closure captures the then-current count of 33), insert
the parameter name "e\nv" (current prelude count becomes 34), and let a
runtime error arrive at assembled row 34: the closure remaps with the
stale captured count and reports row 1, whereas remapping with the count
current at the time of the error would report row 0. -/
theorem async_remap_uses_registration_count :
    ((((WgpuToyRenderer.new 1 1).on_error).set_custom_float "e\nv" 0).on_uncaptured_error
        (some (34, 5, "m"))).2 = [Event.errorReported "m" 1 5] ∧
    count_newlines ((((WgpuToyRenderer.new 1 1).on_error).set_custom_float "e\nv" 0).prelude) = 34 ∧
    (if 34 ≥ count_newlines ((((WgpuToyRenderer.new 1 1).on_error).set_custom_float "e\nv" 0).prelude)
      then 34 - count_newlines ((((WgpuToyRenderer.new 1 1).on_error).set_custom_float "e\nv" 0).prelude)
      else 0) = 0 ∧
    (1 : Nat) ≠ 0 := by
  refine ⟨by decide, by decide, by decide, by decide⟩

/-- C5 amended: the prelude line count used to remap a synchronous
compile error is recomputed from the current prelude at remap time, while
an asynchronous runtime/validation error is remapped using the prelude
line count captured when the error callback was registered (which
`on_error` stores from the then-current prelude). -/
theorem error_remap_prelude_count_amended (st : WgpuToyRenderer) (e : ParseError)
    (wgsl : String) (hcb : st.on_error_cb = true)
    (L : Nat) (hreg : st.uncaptured_prelude_len = some L)
    (row col : Nat) (summary : String) :
    st.handle_error e wgsl =
      Event.errorReported e.message
        (if e.row ≥ count_newlines st.prelude then e.row - count_newlines st.prelude else 0)
        e.col ∧
    (st.on_uncaptured_error (some (row, col, summary))).2 =
      [Event.errorReported summary (if row ≥ L then row - L else 0) col] ∧
    (st.on_error).uncaptured_prelude_len = some (count_newlines st.prelude) := by
  refine ⟨?_, ?_, rfl⟩
  · simp [WgpuToyRenderer.handle_error, error_callback_call, hcb,
      ParseError.location, ParseError.emit_to_string]
  · simp [WgpuToyRenderer.on_uncaptured_error, hreg, error_callback_call]

/-- Witness for the amended C5: on the freshly registered state (captured
count 33), a synchronous error at assembled row 40 reports row 7, and an
asynchronous error at row 40 also remaps against the captured 33,
reporting row 7. -/
theorem error_remap_prelude_count_amended_witness :
    ((WgpuToyRenderer.new 1 1).on_error).handle_error ⟨40, 3, "x"⟩ "w" =
      Event.errorReported "x"
        (if 40 ≥ count_newlines (((WgpuToyRenderer.new 1 1).on_error).prelude)
          then 40 - count_newlines (((WgpuToyRenderer.new 1 1).on_error).prelude) else 0) 3 ∧
    (((WgpuToyRenderer.new 1 1).on_error).on_uncaptured_error (some (40, 3, "m"))).2 =
      [Event.errorReported "m" (if 40 ≥ 33 then 40 - 33 else 0) 3] := by
  have h := error_remap_prelude_count_amended ((WgpuToyRenderer.new 1 1).on_error)
    ⟨40, 3, "x"⟩ "w" rfl 33 (by decide) 40 3 "m"
  exact ⟨h.1, h.2.1⟩

/-- A reachable state whose custom map holds `MAX_CUSTOM_PARAMS` entries:
the `_dummy` placeholder plus fifteen user parameters. -/
def st_full_params : WgpuToyRenderer :=
  (["p01", "p02", "p03", "p04", "p05", "p06", "p07", "p08", "p09", "p10",
    "p11", "p12", "p13", "p14", "p15"].foldl
    (fun s n => s.set_custom_float n 0) (WgpuToyRenderer.new 1 1))

/-- Counterexample to C6 as stated: `set_custom_float` performs no
parameter-count check. On a state already holding `MAX_CUSTOM_PARAMS`
(16) entries, inserting a seventeenth distinct name does not fail — the
function returns normally and the set silently grows to 17 entries. -/
theorem set_custom_float_exceeds_max_silently :
    st_full_params.custom.length = MAX_CUSTOM_PARAMS ∧
    (st_full_params.set_custom_float "p16" 0).custom.length = MAX_CUSTOM_PARAMS + 1 := by
  refine ⟨by decide, by decide⟩

/-- C6 amended: `set_keydown` with a key code outside `[0, 256)` fails
loudly (the bitset write panics, modelled as `none`) and an in-range code
succeeds; `set_custom_float`, however, performs no parameter-count
check — inserting a fresh name always succeeds and grows the set by one,
regardless of `MAX_CUSTOM_PARAMS`. -/
theorem config_errors_amended (st : WgpuToyRenderer) (keycode : Nat) (b : Bool)
    (name : String) (v : Nat)
    (hk : NUM_KEYCODES ≤ keycode)
    (hnew : ∀ p ∈ st.custom, p.1.data ≠ name.data) :
    st.set_keydown keycode b = none ∧
    (st.set_custom_float name v).custom.length = st.custom.length + 1 := by
  constructor
  · simp only [WgpuToyRenderer.set_keydown, ite_eq_right_iff]
    intro hlt
    exact absurd hlt (Nat.not_lt.mpr hk)
  · simpa [WgpuToyRenderer.set_custom_float] using btree_insert_length name v st.custom hnew

/-- Witness for the amended C6: key code 256 fails on the fresh state, and
inserting the fresh name "p16" into the 16-entry state yields 17 entries. -/
theorem config_errors_amended_witness :
    (WgpuToyRenderer.new 1 1).set_keydown 256 true = none ∧
    (st_full_params.set_custom_float "p16" 0).custom.length = st_full_params.custom.length + 1 := by
  have h := config_errors_amended st_full_params 256 true "p16" 0 (by decide) (by decide)
  have h2 := config_errors_amended (WgpuToyRenderer.new 1 1) 256 true "p16" 0 (by decide)
    (by decide)
  exact ⟨h2.1, h.2⟩

/-- The state reached by: register the callback, install shader "a",
install shader "b", receive a runtime fault, render one frame. The frame
consumed the rollback: the rollback slot is empty while the current set
still holds shader "a"'s stage. -/
def st_after_rollback : WgpuToyRenderer :=
  ((((((WgpuToyRenderer.new 1 1).on_error).set_shader parse_one_compute "a").1).set_shader
      parse_one_compute "b").1.on_uncaptured_error (some (0, 0, "e"))).1.render_to.1

/-- Counterexample to C10 as stated: consuming a rollback empties the
rollback slot but restores a (possibly non-empty) current set, so
`rollback = None` does not imply an empty current set in all reachable
states: `st_after_rollback` is reachable, has an empty rollback slot and
a one-stage current set. -/
theorem rollback_none_invariant_counterexample :
    ¬ (∀ st : WgpuToyRenderer, Reachable st →
        st.last_compute_pipelines = none → st.compute_pipelines = []) := by
  intro hcl
  have hreach : Reachable st_after_rollback :=
    Reachable.render (Reachable.on_uncaptured _ (Reachable.set_shader _ _
      (Reachable.set_shader _ _ (Reachable.on_error (Reachable.new 1 1)))))
  have h := hcl st_after_rollback hreach rfl
  have hlen : st_after_rollback.compute_pipelines.length = 1 := rfl
  rw [h] at hlen
  simp at hlen

/-- C10 amended: the implication `rollback = None → current = []` holds in
every state reachable without ever consuming a rollback; and when a fault
signal is consumed while no rollback set is stored, only a warning is
logged and the current pipeline set is left unchanged (so the frame runs
with the existing current set — empty exactly when it was already empty,
as before any successful compile). -/
theorem rollback_none_invariant_amended :
    (∀ st : WgpuToyRenderer, ReachableNoRollback st →
      st.last_compute_pipelines = none → st.compute_pipelines = []) ∧
    (∀ st : WgpuToyRenderer, st.shader_error = true → st.last_compute_pipelines = none →
      (st.render_to).1.compute_pipelines = st.compute_pipelines ∧
      (st.render_to).1.shader_error = false ∧
      Event.logWarn "unable to rollback shader after error" ∈ (st.render_to).2) := by
  constructor
  · intro st hr
    induction hr with
    | new w h => intro _; rfl
    | set_shader parse shader hr ih =>
      rename_i st0
      rcases hps : parse (st0.prelude ++ shader) with e | m <;>
        simp [WgpuToyRenderer.set_shader, hps]
      exact fun h => ih h
    | render hr hflag ih =>
      rename_i st0
      simpa [WgpuToyRenderer.render_to, hflag] using ih
    | on_uncaptured captures hr ih =>
      rename_i st0
      rcases hL : st0.uncaptured_prelude_len with _ | L <;>
        rcases captures with _ | ⟨row, col, summary⟩ <;>
        simpa [WgpuToyRenderer.on_uncaptured_error, hL] using ih
    | on_error hr ih => simpa [WgpuToyRenderer.on_error] using ih
    | set_custom_float name v hr ih => simpa [WgpuToyRenderer.set_custom_float] using ih
    | set_keydown hr heq ih =>
      rename_i st0 st2 keycode bkey
      simp only [WgpuToyRenderer.set_keydown] at heq
      rcases Nat.decLt keycode NUM_KEYCODES with hlt | hlt
      · simp [hlt] at heq
      · simp [hlt] at heq
        rw [← heq]
        exact ih
    | resize w h hr ih => simpa [WgpuToyRenderer.resize] using ih
    | set_pass_f32 bflag hr ih => simpa [WgpuToyRenderer.set_pass_f32] using ih
    | set_time_elapsed t hr ih => simpa [WgpuToyRenderer.set_time_elapsed] using ih
    | set_mouse_pos x y hr ih => simpa [WgpuToyRenderer.set_mouse_pos] using ih
    | set_mouse_click bclick hr ih => simpa [WgpuToyRenderer.set_mouse_click] using ih
  · intro st hflag hlast
    refine ⟨?_, ?_, ?_⟩ <;> simp [WgpuToyRenderer.render_to, hflag, hlast]

/-- Witness for the amended C10: the fresh state is reachable without
rollback and satisfies the invariant, and a fault consumed on a
freshly-registered (never-compiled) state leaves the empty current set
unchanged while logging the warning. -/
theorem rollback_none_invariant_amended_witness :
    (WgpuToyRenderer.new 1 1).compute_pipelines = [] ∧
    ((((WgpuToyRenderer.new 1 1).on_error).on_uncaptured_error (some (0, 0, "e"))).1.render_to).1.compute_pipelines =
      (((WgpuToyRenderer.new 1 1).on_error).on_uncaptured_error (some (0, 0, "e"))).1.compute_pipelines ∧
    Event.logWarn "unable to rollback shader after error" ∈
      (((((WgpuToyRenderer.new 1 1).on_error).on_uncaptured_error (some (0, 0, "e"))).1.render_to).2) := by
  have h1 := rollback_none_invariant_amended.1 (WgpuToyRenderer.new 1 1)
    (ReachableNoRollback.new 1 1) rfl
  have h2 := rollback_none_invariant_amended.2
    ((((WgpuToyRenderer.new 1 1).on_error).on_uncaptured_error (some (0, 0, "e"))).1) rfl rfl
  exact ⟨h1, h2.1, h2.2.2⟩

end Wgputoy
